import Mathlib

/-!
Verification of the HanDI gesture-to-control core.

Shallow embedding of the gesture pipeline from HandTrackingModule.py and
HandTrackingGUI.py:
  * landmark lists are lists of integer pixel coordinates (list index =
    MediaPipe landmark id, matching findPosition's output ordering);
  * Python floats are idealised as rationals where the computation is exact
    (areas, interpolation, MIDI values) and as reals where math.hypot
    introduces a square root (pinch distance);
  * Python attribute and index errors are modelled with Except;
  * sink callbacks are modelled by returning the dispatched values.
-/

namespace HanDI

/-- One landmark's (x, y) pixel position; the list index plays the id role. -/
abbrev Landmark := ℤ × ℤ

/-- A per-frame landmark list, as produced by HandDetector.findPosition. -/
abbrev LandmarkSet := List Landmark

/-- Python runtime errors that the embedded code can raise. -/
inductive PyError where
  | attributeError (attr : String)
  | indexError
deriving DecidableEq

/-- Python's negative-index adjustment for a list of the given length. -/
def pyIdx {α : Type} (l : List α) (i : ℤ) : ℤ :=
  if i < 0 then i + l.length else i

/-- Python list indexing (supports negative indices, raises IndexError). -/
def pyGet {α : Type} (l : List α) (i : ℤ) : Except PyError α :=
  if h : 0 ≤ pyIdx l i ∧ (pyIdx l i).toNat < l.length then
    .ok (l.get ⟨(pyIdx l i).toNat, h.2⟩)
  else .error .indexError

/-- Python max over a nonempty list (0 is a dummy for the empty case,
which every caller guards against). -/
def pyMax : List ℤ → ℤ
  | [] => 0
  | x :: xs => xs.foldl max x

/-- Python min over a nonempty list. -/
def pyMin : List ℤ → ℤ
  | [] => 0
  | x :: xs => xs.foldl min x

/-- The x coordinates of a landmark list (pt[1] in the source). -/
def xsOf (lm : LandmarkSet) : List ℤ := lm.map Prod.fst

/-- The y coordinates of a landmark list (pt[2] in the source). -/
def ysOf (lm : LandmarkSet) : List ℤ := lm.map Prod.snd

/-- np.interp(x, [a, b], [0, 1]): clamped linear interpolation. -/
def npInterp01 {K : Type} [LinearOrderedField K] (x a b : K) : K :=
  if x ≤ a then 0 else if b ≤ x then 1 else (x - a) / (b - a)

/-- HandDetector state: the per-frame landmark list, and the tip-id table
read by fingersUp / is_victory / is_thumbs_up.  __init__ (lines 19-40 of
HandTrackingModule.py) never assigns self.tipIds, so a freshly constructed
detector carries none here; reading it then raises AttributeError. -/
structure HandDetector where
  lmList : LandmarkSet
  tipIds : Option (List ℕ)

/-- The state HandDetector.__init__ leaves behind (lmList = [], no tipIds). -/
def HandDetector.init : HandDetector := { lmList := [], tipIds := none }

/-- A detector whose lmList was assigned (as the GUI closures do with
detector.lmList = lmList); tipIds remains unassigned. -/
def HandDetector.withLmList (lm : LandmarkSet) : HandDetector :=
  { lmList := lm, tipIds := none }

/-- HandDetector.fingersUp (HandTrackingModule.py lines 77-90). -/
def HandDetector.fingersUp (d : HandDetector) : Except PyError (List ℕ) :=
  if d.lmList = [] then .ok []
  else
    match d.tipIds with
    | none => .error (.attributeError "tipIds")
    | some tips => do
      let t0 ← pyGet tips 0
      let p ← pyGet d.lmList (t0 : ℤ)
      let q ← pyGet d.lmList ((t0 : ℤ) - 1)
      let thumb : ℕ := if p.1 < q.1 then 1 else 0
      let rest ← (List.range 4).mapM (fun k => do
        let tid ← pyGet tips ((k : ℤ) + 1)
        let p2 ← pyGet d.lmList (tid : ℤ)
        let q2 ← pyGet d.lmList ((tid : ℤ) - 2)
        pure (if p2.2 < q2.2 then (1 : ℕ) else 0))
      pure (thumb :: rest)

/-- HandDetector.findDistance (lines 92-104): math.hypot of the pixel
deltas between landmarks p1 and p2. -/
noncomputable def HandDetector.findDistance (d : HandDetector) (p1 p2 : ℕ) : ℝ :=
  let a := d.lmList.getD p1 (0, 0)
  let b := d.lmList.getD p2 (0, 0)
  Real.sqrt (((b.1 - a.1 : ℤ) : ℝ) ^ 2 + ((b.2 - a.2 : ℤ) : ℝ) ^ 2)

/-- HandDetector.get_bounding_box_volume (lines 142-161): bounding-box
area, range-checked against [250, 30000], then np.interp over [500, 30000]. -/
def HandDetector.get_bounding_box_volume (d : HandDetector) : Option ℚ :=
  if d.lmList = [] then none
  else
    let area : ℤ :=
      (pyMax (xsOf d.lmList) - pyMin (xsOf d.lmList)) *
        (pyMax (ysOf d.lmList) - pyMin (ysOf d.lmList))
    if area < 250 ∨ 30000 < area then none
    else some (npInterp01 (area : ℚ) 500 30000)

/-- The bounding-box area the volume evaluator computes. -/
def bounding_box_area (lm : LandmarkSet) : ℤ :=
  (pyMax (xsOf lm) - pyMin (xsOf lm)) * (pyMax (ysOf lm) - pyMin (ysOf lm))

/-- HandDetector.is_fist (lines 164-186): bounding box narrower than half
its height. -/
def HandDetector.is_fist (d : HandDetector) : Bool :=
  if d.lmList = [] ∨ d.lmList.length < 21 then false
  else
    let w := pyMax (xsOf d.lmList) - pyMin (xsOf d.lmList)
    let h := pyMax (ysOf d.lmList) - pyMin (ysOf d.lmList)
    decide ((w : ℚ) < (h : ℚ) * 0.5)

/-- HandDetector.is_victory (lines 188-207): guard, then the per-finger
truth table read through the (never assigned) tipIds table. -/
def HandDetector.is_victory (d : HandDetector) : Except PyError Bool :=
  if d.lmList = [] ∨ d.lmList.length < 21 then .ok false
  else
    match d.tipIds with
    | none => .error (.attributeError "tipIds")
    | some tips => do
      let t1 ← pyGet tips 1
      let t2 ← pyGet tips 2
      let t3 ← pyGet tips 3
      let t4 ← pyGet tips 4
      let a ← pyGet d.lmList (t1 : ℤ)
      let a2 ← pyGet d.lmList ((t1 : ℤ) - 2)
      let b ← pyGet d.lmList (t2 : ℤ)
      let b2 ← pyGet d.lmList ((t2 : ℤ) - 2)
      let c ← pyGet d.lmList (t3 : ℤ)
      let c2 ← pyGet d.lmList ((t3 : ℤ) - 2)
      let e ← pyGet d.lmList (t4 : ℤ)
      let e2 ← pyGet d.lmList ((t4 : ℤ) - 2)
      pure (decide (a.2 < a2.2) && decide (b.2 < b2.2) &&
        decide (c2.2 < c.2) && decide (e2.2 < e.2))

/-- HandDetector.is_thumbs_up (lines 209-226): reads lmList[4] and
lmList[0], then the folded-finger test through tipIds. -/
def HandDetector.is_thumbs_up (d : HandDetector) : Except PyError Bool :=
  if d.lmList = [] ∨ d.lmList.length < 21 then .ok false
  else do
    let thumb_tip ← pyGet d.lmList 4
    let wrist ← pyGet d.lmList 0
    match d.tipIds with
    | none => .error (.attributeError "tipIds")
    | some tips => do
      let folded ← (List.range 4).mapM (fun k => do
        let tid ← pyGet tips ((k : ℤ) + 1)
        let p2 ← pyGet d.lmList (tid : ℤ)
        let q2 ← pyGet d.lmList ((tid : ℤ) - 2)
        pure (decide (q2.2 < p2.2)))
      pure (decide (thumb_tip.2 < wrist.2) && folded.all id)

/-- BinaryGesture (HandTrackingModule.py lines 308-318): edge-triggered
wrapper.  old_state starts False in __init__.  update is modelled as
returning (whether on_trigger fired this frame, the updated gesture). -/
structure BinaryGesture (α : Type) where
  detector_func : α → Bool
  old_state : Bool

/-- BinaryGesture.update: fire iff current_state and not old_state, then
store current_state. -/
def BinaryGesture.update {α : Type} (g : BinaryGesture α) (lm : α) :
    Bool × BinaryGesture α :=
  let current_state := g.detector_func lm
  (current_state && !g.old_state, { g with old_state := current_state })

/-- Feeding a sequence of frames through update, collecting the per-frame
fired flags (what GestureCollection.update does once per frame). -/
def BinaryGesture.run {α : Type} : BinaryGesture α → List α → List Bool
  | _, [] => []
  | g, lm :: rest => (g.update lm).1 :: (g.update lm).2.run rest

/-- The fire pattern the spec describes: fire exactly on a false→true
transition of the observed predicate, starting from a released latch. -/
def risingEdges : Bool → List Bool → List Bool
  | _, [] => []
  | prev, b :: bs => (b && !prev) :: risingEdges b bs

/-- ContinuousGesture (lines 321-329).  update calls on_value exactly when
the evaluator's output is not None; it is modelled as returning the value
dispatched to the sink (none = sink not invoked). -/
structure ContinuousGesture (α β : Type) where
  detector_func : α → Option β

/-- ContinuousGesture.update: the value passed to on_value, if any. -/
def ContinuousGesture.update {α β : Type} (g : ContinuousGesture α β) (lm : α) :
    Option β :=
  g.detector_func lm

/-- A MIDI message as constructed by MIDITransmiter. -/
inductive MidiMsg where
  | control_change (control channel value : ℤ)
  | note_off (note velocity channel : ℤ)
deriving DecidableEq

/-- MIDITransmiter state.  After a failed connect(), connected = false and
midi_out is still None; after a successful one, connected = true and
midi_out holds the port. -/
structure MIDITransmiter where
  connected : Bool
  midi_out : Option Unit

/-- A transmitter whose connect() failed (port not found). -/
def disconnectedTransmiter : MIDITransmiter := ⟨false, none⟩

/-- A transmitter whose connect() succeeded. -/
def connectedTransmiter : MIDITransmiter := ⟨true, some ()⟩

/-- Python int() on a rational: truncation toward zero. -/
def pyInt (q : ℚ) : ℤ := if 0 ≤ q then ⌊q⌋ else ⌈q⌉

/-- midi_out.send, which is an attribute error when midi_out is None. -/
def MIDITransmiter.send_raw (t : MIDITransmiter) (msgs : List MidiMsg) :
    Except PyError (List MidiMsg) :=
  match t.midi_out with
  | none => .error (.attributeError "send")
  | some _ => .ok msgs

/-- MIDITransmiter.send_stop (lines 253-260): guarded; note_off on every
note of every channel. -/
def MIDITransmiter.send_stop (t : MIDITransmiter) : Except PyError (List MidiMsg) :=
  if !t.connected then .ok []
  else t.send_raw ((List.range 16).flatMap (fun ch =>
    (List.range 128).map (fun note => .note_off note 0 ch)))

/-- MIDITransmiter.send_volume (lines 263-269): guarded; CC7. -/
def MIDITransmiter.send_volume (t : MIDITransmiter) (fraction : ℚ) (channel : ℤ) :
    Except PyError (List MidiMsg) :=
  if !t.connected then .ok []
  else t.send_raw [.control_change 7 channel (pyInt (fraction * 127))]

/-- MIDITransmiter.send_octave (lines 271-276): NOT guarded; CC15. -/
def MIDITransmiter.send_octave (t : MIDITransmiter) (fraction : ℚ) (channel : ℤ) :
    Except PyError (List MidiMsg) :=
  t.send_raw [.control_change 15 channel (pyInt (fraction * 127))]

/-- MIDITransmiter.send_modulation (lines 278-282): NOT guarded; CC1. -/
def MIDITransmiter.send_modulation (t : MIDITransmiter) (fraction : ℚ) (channel : ℤ) :
    Except PyError (List MidiMsg) :=
  t.send_raw [.control_change 1 channel (pyInt (fraction * 127))]

/-- MIDITransmiter.send_cc (lines 284-290): guarded; given controller. -/
def MIDITransmiter.send_cc (t : MIDITransmiter) (fraction : ℚ) (control channel : ℤ) :
    Except PyError (List MidiMsg) :=
  if !t.connected then .ok []
  else t.send_raw [.control_change control channel (pyInt (fraction * 127))]

/-- MIDITransmiter.send_fist (lines 293-301): guarded; delegates to send_stop. -/
def MIDITransmiter.send_fist (t : MIDITransmiter) : Except PyError (List MidiMsg) :=
  if !t.connected then .ok []
  else t.send_stop

/-- bounding_box_func closure from HandTrackingGUI.on_apply_gestures:
assigns detector.lmList, then calls get_bounding_box_volume. -/
def bounding_box_func (lm : LandmarkSet) : Option ℚ :=
  (HandDetector.withLmList lm).get_bounding_box_volume

/-- pinch_func closure (HandTrackingGUI.py lines 307-316): guard on 21
landmarks, thumb-index distance, band check [20, 220], np.interp to [0,1].
It keeps no state between calls. -/
noncomputable def pinch_func (lm : LandmarkSet) : Option ℝ :=
  if lm.length < 21 then none
  else
    let dist := (HandDetector.withLmList lm).findDistance 4 8
    if dist < 20 ∨ 220 < dist then none
    else some (npInterp01 dist 20 220)

/-- fist_bool closure from on_apply_gestures. -/
def fist_bool (lm : LandmarkSet) : Bool :=
  (HandDetector.withLmList lm).is_fist

/-- 21 landmarks with thumb tip (id 4) at (0,0) and index tip (id 8) at
(120,0): pinch distance exactly 120 px. -/
def pinch_lm120 : LandmarkSet :=
  [(0,0),(0,0),(0,0),(0,0),(0,0),(0,0),(0,0),(0,0),(120,0),(0,0),(0,0),
   (0,0),(0,0),(0,0),(0,0),(0,0),(0,0),(0,0),(0,0),(0,0),(0,0)]

/-- Same but index tip at (121,0): pinch distance 121 px. -/
def pinch_lm121 : LandmarkSet :=
  [(0,0),(0,0),(0,0),(0,0),(0,0),(0,0),(0,0),(0,0),(121,0),(0,0),(0,0),
   (0,0),(0,0),(0,0),(0,0),(0,0),(0,0),(0,0),(0,0),(0,0),(0,0)]

/-- Index tip at (220,0): pinch distance exactly the configured maximum. -/
def pinch_lm220 : LandmarkSet :=
  [(0,0),(0,0),(0,0),(0,0),(0,0),(0,0),(0,0),(0,0),(220,0),(0,0),(0,0),
   (0,0),(0,0),(0,0),(0,0),(0,0),(0,0),(0,0),(0,0),(0,0),(0,0)]

/-- Index tip at (230,0): pinch distance beyond the configured maximum. -/
def pinch_lm230 : LandmarkSet :=
  [(0,0),(0,0),(0,0),(0,0),(0,0),(0,0),(0,0),(0,0),(230,0),(0,0),(0,0),
   (0,0),(0,0),(0,0),(0,0),(0,0),(0,0),(0,0),(0,0),(0,0),(0,0)]

/-- 21 landmarks whose bounding box is 40 px wide and 100 px tall. -/
def fist_lm40 : LandmarkSet :=
  [(0,0),(40,100),(0,0),(0,0),(0,0),(0,0),(0,0),(0,0),(0,0),(0,0),(0,0),
   (0,0),(0,0),(0,0),(0,0),(0,0),(0,0),(0,0),(0,0),(0,0),(0,0)]

/-- 21 landmarks whose bounding box is 80 px wide and 100 px tall. -/
def fist_lm80 : LandmarkSet :=
  [(0,0),(80,100),(0,0),(0,0),(0,0),(0,0),(0,0),(0,0),(0,0),(0,0),(0,0),
   (0,0),(0,0),(0,0),(0,0),(0,0),(0,0),(0,0),(0,0),(0,0),(0,0)]

/-- 21 landmarks whose bounding box is 100 x 100 px: area 10000, inside
the accepted band. -/
def bb_lm100 : LandmarkSet :=
  [(0,0),(100,100),(0,0),(0,0),(0,0),(0,0),(0,0),(0,0),(0,0),(0,0),(0,0),
   (0,0),(0,0),(0,0),(0,0),(0,0),(0,0),(0,0),(0,0),(0,0),(0,0)]

/-- 21 landmarks shaped as a victory sign: index tip (8) and middle tip
(12) above their joints (6, 10); ring tip (16) and pinky tip (20) below
their joints (14, 18).  Image y grows downward, so smaller y = higher. -/
def victory_lm : LandmarkSet :=
  [(0,50),(0,50),(0,50),(0,50),(0,50),(0,50),(0,50),(0,50),(0,10),(0,50),
   (0,50),(0,50),(0,10),(0,50),(0,50),(0,50),(0,90),(0,50),(0,50),(0,50),
   (0,90)]

/-! ## Helper lemmas -/

theorem foldl_min_le (a : ℤ) (l : List ℤ) : l.foldl min a ≤ a := by
  induction l generalizing a with
  | nil => exact le_refl a
  | cons b bs ih => exact le_trans (ih (min a b)) (min_le_left a b)

theorem le_foldl_max (a : ℤ) (l : List ℤ) : a ≤ l.foldl max a := by
  induction l generalizing a with
  | nil => exact le_refl a
  | cons b bs ih => exact le_trans (le_max_left a b) (ih (max a b))

theorem pyMin_le_pyMax (l : List ℤ) (h : l ≠ []) : pyMin l ≤ pyMax l := by
  cases l with
  | nil => exact absurd rfl h
  | cons x xs =>
      exact le_trans (foldl_min_le x xs) (le_foldl_max x xs)

theorem pyGet_isOk {α : Type} (l : List α) (i : ℤ) (h0 : 0 ≤ i)
    (h : i.toNat < l.length) : ∃ x, pyGet l i = Except.ok x := by
  have hidx : pyIdx l i = i := by
    simp only [pyIdx, if_neg (not_lt.mpr h0)]
  have hc : 0 ≤ pyIdx l i ∧ (pyIdx l i).toNat < l.length := by
    rw [hidx]; exact ⟨h0, h⟩
  exact ⟨_, by simp only [pyGet]; rw [dif_pos hc]⟩

theorem npInterp01_bounds {K : Type} [LinearOrderedField K] (x a b : K)
    (_hab : a < b) : 0 ≤ npInterp01 x a b ∧ npInterp01 x a b ≤ 1 := by
  unfold npInterp01
  split
  · exact ⟨le_refl 0, zero_le_one⟩
  · split
    · exact ⟨zero_le_one, le_refl 1⟩
    · rename_i h1 h2
      push_neg at h1 h2
      refine ⟨div_nonneg (by linarith) (by linarith), ?_⟩
      rw [div_le_one (by linarith)]
      linarith

theorem npInterp01_eq_of_mem {K : Type} [LinearOrderedField K] (x a b : K)
    (hab : a < b) (h1 : a ≤ x) (h2 : x ≤ b) :
    npInterp01 x a b = (x - a) / (b - a) := by
  unfold npInterp01
  split
  · rename_i h
    rw [le_antisymm h h1]
    simp
  · split
    · rename_i h
      rw [le_antisymm h2 h, div_self (ne_of_gt (by linarith))]
    · rfl

theorem BinaryGesture.run_mk {α : Type} (f : α → Bool) (frames : List α) :
    ∀ init : Bool,
      (BinaryGesture.mk f init).run frames = risingEdges init (frames.map f) := by
  induction frames with
  | nil => intro init; rfl
  | cons lm rest ih =>
      intro init
      simp [BinaryGesture.run, BinaryGesture.update, risingEdges, ih]

theorem findDistance_same_y (lm : LandmarkSet) (x1 x2 y : ℤ)
    (h4 : lm.getD 4 (0, 0) = (x1, y)) (h8 : lm.getD 8 (0, 0) = (x2, y))
    (hx : x1 ≤ x2) :
    (HandDetector.withLmList lm).findDistance 4 8 = ((x2 - x1 : ℤ) : ℝ) := by
  simp only [HandDetector.findDistance, HandDetector.withLmList, h4, h8]
  have hsq : ((x2 - x1 : ℤ) : ℝ) ^ 2 + ((y - y : ℤ) : ℝ) ^ 2
      = ((x2 - x1 : ℤ) : ℝ) ^ 2 := by
    push_cast
    ring
  rw [hsq, Real.sqrt_sq (by exact_mod_cast sub_nonneg.mpr hx)]

theorem pinch_func_in_band (lm : LandmarkSet) (h : 21 ≤ lm.length)
    (h1 : 20 ≤ (HandDetector.withLmList lm).findDistance 4 8)
    (h2 : (HandDetector.withLmList lm).findDistance 4 8 ≤ 220) :
    pinch_func lm
      = some (((HandDetector.withLmList lm).findDistance 4 8 - 20) / 200) := by
  unfold pinch_func
  rw [if_neg (by omega)]
  rw [if_neg (by push_neg; exact ⟨h1, h2⟩)]
  rw [npInterp01_eq_of_mem _ 20 220 (by norm_num) h1 h2]
  norm_num

/-! ## Claims -/

/-- C1: feeding any sequence of boolean evaluator outputs through
BinaryGesture.update (initial old_state = False) fires the trigger exactly
on false→true transitions: held trues do not re-fire, returning to false
resets the latch silently, and [false, true, true, false, true] fires
exactly twice, at indices 1 and 4. -/
theorem binary_gesture_rising_edge :
    (∀ (α : Type) (f : α → Bool) (frames : List α),
      (BinaryGesture.mk f false).run frames = risingEdges false (frames.map f)) ∧
    (BinaryGesture.mk (fun b : Bool => b) false).run
        [false, true, true, false, true]
      = [false, true, false, false, true] ∧
    ((BinaryGesture.mk (fun b : Bool => b) false).run
        [false, true, true, false, true]).count true = 2 :=
  ⟨fun _ f frames => BinaryGesture.run_mk f frames false, by decide, by decide⟩

/-- C2: with any non-empty landmark list assigned, fingersUp raises
AttributeError on the never-assigned tipIds table; is_victory and
is_thumbs_up do the same once the 21-point guard passes; only the
empty-list and fewer-than-21-point guard paths return normally
([] resp. False). -/
theorem undefined_tipIds_attribute_error (lm : LandmarkSet) :
    (lm ≠ [] →
      (HandDetector.withLmList lm).fingersUp
        = .error (.attributeError "tipIds")) ∧
    (21 ≤ lm.length →
      (HandDetector.withLmList lm).is_victory
          = .error (.attributeError "tipIds") ∧
        (HandDetector.withLmList lm).is_thumbs_up
          = .error (.attributeError "tipIds")) ∧
    HandDetector.init.tipIds = none ∧
    (HandDetector.withLmList []).fingersUp = .ok [] ∧
    (lm.length < 21 →
      (HandDetector.withLmList lm).is_victory = .ok false ∧
        (HandDetector.withLmList lm).is_thumbs_up = .ok false) := by
  refine ⟨?_, ?_, rfl, rfl, ?_⟩
  · intro h
    simp [HandDetector.fingersUp, HandDetector.withLmList, h]
  · intro hlen
    have hne : ¬(lm = [] ∨ lm.length < 21) := by
      rintro (h | h)
      · rw [h] at hlen
        simp at hlen
      · omega
    constructor
    · simp only [HandDetector.is_victory, HandDetector.withLmList]
      rw [if_neg hne]
    · obtain ⟨x4, hx4⟩ := pyGet_isOk lm 4 (by norm_num) (by simp; omega)
      obtain ⟨x0, hx0⟩ := pyGet_isOk lm 0 (by norm_num) (by simp; omega)
      simp only [HandDetector.is_thumbs_up, HandDetector.withLmList]
      rw [if_neg hne]
      rw [hx4, hx0]
      rfl
  · intro hlen
    have hne : lm = [] ∨ lm.length < 21 := Or.inr hlen
    constructor
    · simp [HandDetector.is_victory, HandDetector.withLmList, hne]
    · simp [HandDetector.is_thumbs_up, HandDetector.withLmList, hne]

/-- C2 witness: the failure at a concrete 21-point landmark list. -/
theorem undefined_tipIds_attribute_error_witness :
    (HandDetector.withLmList victory_lm).fingersUp
        = .error (.attributeError "tipIds") ∧
      (HandDetector.withLmList victory_lm).is_victory
        = .error (.attributeError "tipIds") ∧
      (HandDetector.withLmList victory_lm).is_thumbs_up
        = .error (.attributeError "tipIds") :=
  ⟨(undefined_tipIds_attribute_error victory_lm).1 (by decide),
    ((undefined_tipIds_attribute_error victory_lm).2.1 (by decide)).1,
    ((undefined_tipIds_attribute_error victory_lm).2.1 (by decide)).2⟩

/-- C4: on the empty landmark list the continuous evaluators return none,
the discrete ones return false without raising, and neither gesture's
update dispatches to its sink. -/
theorem empty_landmarks_no_signal_no_dispatch :
    bounding_box_func [] = none ∧
    pinch_func [] = none ∧
    fist_bool [] = false ∧
    (HandDetector.withLmList []).is_victory = .ok false ∧
    (HandDetector.withLmList []).is_thumbs_up = .ok false ∧
    (ContinuousGesture.mk bounding_box_func).update [] = none ∧
    (ContinuousGesture.mk pinch_func).update [] = none ∧
    (∀ b : Bool, ((BinaryGesture.mk fist_bool b).update []).1 = false) := by
  refine ⟨rfl, rfl, rfl, rfl, rfl, rfl, rfl, ?_⟩
  intro b
  simp [BinaryGesture.update, fist_bool, HandDetector.is_fist,
    HandDetector.withLmList]

/-- C5: for every 21-point landmark list, the bounding-box area is
(xmax−xmin)·(ymax−ymin) ≥ 0; the volume evaluator returns none exactly
when the area lies outside [250, 30000]; inside the band it returns the
area linearly rescaled over [500, 30000] into [0,1], with areas below the
rescale minimum 500 clamped to 0 and area 30000 mapped to 1. -/
theorem bounding_box_volume_spec (lm : LandmarkSet) (h : lm.length = 21) :
    0 ≤ bounding_box_area lm ∧
    bounding_box_area lm
      = (pyMax (xsOf lm) - pyMin (xsOf lm)) *
          (pyMax (ysOf lm) - pyMin (ysOf lm)) ∧
    ((HandDetector.withLmList lm).get_bounding_box_volume = none ↔
      (bounding_box_area lm < 250 ∨ 30000 < bounding_box_area lm)) ∧
    (250 ≤ bounding_box_area lm → bounding_box_area lm ≤ 500 →
      (HandDetector.withLmList lm).get_bounding_box_volume = some 0) ∧
    (500 ≤ bounding_box_area lm → bounding_box_area lm ≤ 30000 →
      (HandDetector.withLmList lm).get_bounding_box_volume
        = some (((bounding_box_area lm : ℚ) - 500) / 29500)) ∧
    (∀ v, (HandDetector.withLmList lm).get_bounding_box_volume = some v →
      0 ≤ v ∧ v ≤ 1) := by
  have hne : lm ≠ [] := by
    intro he
    rw [he] at h
    simp at h
  have hvol : (HandDetector.withLmList lm).get_bounding_box_volume =
      if bounding_box_area lm < 250 ∨ 30000 < bounding_box_area lm then none
      else some (npInterp01 (bounding_box_area lm : ℚ) 500 30000) := by
    simp only [HandDetector.get_bounding_box_volume, HandDetector.withLmList,
      bounding_box_area]
    rw [if_neg hne]
  have hxne : xsOf lm ≠ [] := by
    simp only [xsOf, ne_eq, List.map_eq_nil_iff]
    exact hne
  have hyne : ysOf lm ≠ [] := by
    simp only [ysOf, ne_eq, List.map_eq_nil_iff]
    exact hne
  have harea : 0 ≤ bounding_box_area lm :=
    mul_nonneg (sub_nonneg.mpr (pyMin_le_pyMax _ hxne))
      (sub_nonneg.mpr (pyMin_le_pyMax _ hyne))
  refine ⟨harea, rfl, ?_, ?_, ?_, ?_⟩
  · rw [hvol]
    by_cases hc : bounding_box_area lm < 250 ∨ 30000 < bounding_box_area lm
    · simp [hc]
    · simp [hc]
  · intro h1 h2
    rw [hvol, if_neg (by omega)]
    have hle : (bounding_box_area lm : ℚ) ≤ 500 := by exact_mod_cast h2
    simp only [npInterp01, if_pos hle]
  · intro h1 h2
    rw [hvol, if_neg (by omega)]
    rw [npInterp01_eq_of_mem _ 500 30000 (by norm_num)
      (by exact_mod_cast h1) (by exact_mod_cast h2)]
    norm_num
  · intro v hv
    rw [hvol] at hv
    by_cases hc : bounding_box_area lm < 250 ∨ 30000 < bounding_box_area lm
    · rw [if_pos hc] at hv
      exact absurd hv (by simp)
    · rw [if_neg hc] at hv
      have hveq : v = npInterp01 (bounding_box_area lm : ℚ) 500 30000 :=
        (Option.some.injEq _ _ ▸ hv).symm
    -- fallthrough handled below
      rw [hveq]
      exact npInterp01_bounds _ _ _ (by norm_num)

/-- C5 witness: a 100×100 px bounding box has area 10000, inside the band,
and rescales to (10000−500)/29500. -/
theorem bounding_box_volume_spec_witness :
    bounding_box_area bb_lm100 = 10000 ∧
    bounding_box_func bb_lm100
      = some (((bounding_box_area bb_lm100 : ℚ) - 500) / 29500) :=
  ⟨by decide,
    (bounding_box_volume_spec bb_lm100 (by decide)).2.2.2.2.1
      (by decide) (by decide)⟩

/-- C7: for every 21-point landmark list, is_fist returns true exactly when
the bounding-box width is below 0.5 times its height; a 40-wide, 100-tall
box tests true, an 80-wide, 100-tall box tests false. -/
theorem fist_iff_narrow_box (lm : LandmarkSet) (h : lm.length = 21) :
    ((HandDetector.withLmList lm).is_fist = true ↔
      ((pyMax (xsOf lm) - pyMin (xsOf lm) : ℤ) : ℚ)
        < ((pyMax (ysOf lm) - pyMin (ysOf lm) : ℤ) : ℚ) * 0.5) ∧
    fist_bool fist_lm40 = true ∧
    fist_bool fist_lm80 = false := by
  have hne : ¬(lm = [] ∨ lm.length < 21) := by
    rintro (he | hl)
    · rw [he] at h
      simp at h
    · omega
  refine ⟨?_, ?_, ?_⟩
  · simp only [HandDetector.is_fist, HandDetector.withLmList]
    rw [if_neg hne]
    simp [decide_eq_true_iff]
  · simp only [fist_bool, HandDetector.is_fist, HandDetector.withLmList]
    rw [if_neg (by decide)]
    norm_num [fist_lm40, xsOf, ysOf, pyMax, pyMin, max_def, min_def,
      decide_eq_true_iff]
  · simp only [fist_bool, HandDetector.is_fist, HandDetector.withLmList]
    rw [if_neg (by decide)]
    norm_num [fist_lm80, xsOf, ysOf, pyMax, pyMin, max_def, min_def,
      decide_eq_false_iff_not]

/-- C7 witness: the iff at the concrete 40×100 box. -/
theorem fist_iff_narrow_box_witness :
    (HandDetector.withLmList fist_lm40).is_fist = true :=
  ((fist_iff_narrow_box fist_lm40 (by decide)).1).mpr
    (by norm_num [fist_lm40, xsOf, ysOf, pyMax, pyMin, max_def, min_def])

/-- C8: the per-finger victory truth table in is_victory is unreachable:
on a 21-point victory-shaped landmark list the method raises
AttributeError on the never-assigned tipIds, and only a detector patched
with the intended table tipIds = [4, 8, 12, 16, 20] evaluates the table
(true on the victory shape, false on a flat hand). -/
theorem victory_attribute_error_bug :
    (HandDetector.withLmList victory_lm).is_victory
        = .error (.attributeError "tipIds") ∧
    (HandDetector.mk victory_lm (some [4, 8, 12, 16, 20])).is_victory
        = .ok true ∧
    (HandDetector.mk fist_lm40 (some [4, 8, 12, 16, 20])).is_victory
        = .ok false :=
  ⟨rfl, rfl, rfl⟩

theorem dist_lm120 :
    (HandDetector.withLmList pinch_lm120).findDistance 4 8 = 120 := by
  have h := findDistance_same_y pinch_lm120 0 120 0 rfl rfl (by norm_num)
  simpa using h

theorem dist_lm121 :
    (HandDetector.withLmList pinch_lm121).findDistance 4 8 = 121 := by
  have h := findDistance_same_y pinch_lm121 0 121 0 rfl rfl (by norm_num)
  simpa using h

theorem dist_lm220 :
    (HandDetector.withLmList pinch_lm220).findDistance 4 8 = 220 := by
  have h := findDistance_same_y pinch_lm220 0 220 0 rfl rfl (by norm_num)
  simpa using h

theorem dist_lm230 :
    (HandDetector.withLmList pinch_lm230).findDistance 4 8 = 230 := by
  have h := findDistance_same_y pinch_lm230 0 230 0 rfl rfl (by norm_num)
  simpa using h

/-- C3 counterexample: pinch_func applies no hysteresis.  Two readings one
pixel apart (normalized difference 1/200, smaller than any plausible
jitter threshold, in particular below 1/100) yield different raw outputs
on consecutive calls, refuting the claimed stale-value behaviour for every
fixed threshold above 1/200. -/
theorem pinch_hysteresis_fails :
    pinch_func pinch_lm120 = some (1 / 2) ∧
    pinch_func pinch_lm121 = some (101 / 200) ∧
    |(101 / 200 : ℝ) - 1 / 2| < 1 / 100 ∧
    (101 / 200 : ℝ) ≠ 1 / 2 := by
  refine ⟨?_, ?_, ?_, by norm_num⟩
  · rw [pinch_func_in_band pinch_lm120 (by decide)
      (by rw [dist_lm120]; norm_num) (by rw [dist_lm120]; norm_num),
      dist_lm120]
    norm_num
  · rw [pinch_func_in_band pinch_lm121 (by decide)
      (by rw [dist_lm121]; norm_num) (by rw [dist_lm121]; norm_num),
      dist_lm121]
    norm_num
  · rw [show (101 / 200 : ℝ) - 1 / 2 = 1 / 200 by norm_num,
      abs_of_pos (by norm_num)]
    norm_num

/-- C3 (amended): pinch_func keeps no state between calls and applies no
hysteresis: whenever the thumb–index distance of the current 21-point
input lies in [20, 220], the call returns the freshly interpolated value
(distance − 20)/200 of that input alone. -/
theorem pinch_returns_fresh_value (lm : LandmarkSet) (h : 21 ≤ lm.length)
    (h1 : 20 ≤ (HandDetector.withLmList lm).findDistance 4 8)
    (h2 : (HandDetector.withLmList lm).findDistance 4 8 ≤ 220) :
    pinch_func lm
      = some (((HandDetector.withLmList lm).findDistance 4 8 - 20) / 200) :=
  pinch_func_in_band lm h h1 h2

/-- C3 witness: the fresh-value equation at distance 120 px. -/
theorem pinch_returns_fresh_value_witness :
    21 ≤ pinch_lm120.length ∧
    pinch_func pinch_lm120
      = some (((HandDetector.withLmList pinch_lm120).findDistance 4 8 - 20)
          / 200) :=
  ⟨by decide,
    pinch_returns_fresh_value pinch_lm120 (by decide)
      (by rw [dist_lm120]; norm_num) (by rw [dist_lm120]; norm_num)⟩

/-- C10 counterexample: beyond the configured maximum distance the output
is not clamped at the maximum: at distance 220 the evaluator yields 1, but
at distance 230 it yields none instead of the clamped value 1. -/
theorem pinch_none_beyond_max :
    (HandDetector.withLmList pinch_lm220).findDistance 4 8 = 220 ∧
    (HandDetector.withLmList pinch_lm230).findDistance 4 8 = 230 ∧
    pinch_func pinch_lm220 = some 1 ∧
    pinch_func pinch_lm230 = none := by
  refine ⟨dist_lm220, dist_lm230, ?_, ?_⟩
  · rw [pinch_func_in_band pinch_lm220 (by decide)
      (by rw [dist_lm220]; norm_num) (by rw [dist_lm220]),
      dist_lm220]
    norm_num
  · simp only [pinch_func]
    rw [if_neg (show ¬(pinch_lm230.length < 21) by decide), dist_lm230,
      if_pos (Or.inr (by norm_num))]

/-- C10 (amended): the normalized pinch output is strictly increasing in
the thumb–index distance while it stays within the accepted band
[20, 220] (the hand width is not used by the evaluator at all); above the
configured maximum the evaluator returns none rather than a clamped value. -/
theorem pinch_monotone_in_band (lm1 lm2 : LandmarkSet)
    (hl1 : 21 ≤ lm1.length) (hl2 : 21 ≤ lm2.length)
    (h1 : 20 ≤ (HandDetector.withLmList lm1).findDistance 4 8)
    (hlt : (HandDetector.withLmList lm1).findDistance 4 8
      < (HandDetector.withLmList lm2).findDistance 4 8)
    (h2 : (HandDetector.withLmList lm2).findDistance 4 8 ≤ 220) :
    ∃ v1 v2, pinch_func lm1 = some v1 ∧ pinch_func lm2 = some v2 ∧
      v1 < v2 := by
  refine ⟨_, _, pinch_func_in_band lm1 hl1 h1 (by linarith),
    pinch_func_in_band lm2 hl2 (by linarith) h2, ?_⟩
  have h200 : (0 : ℝ) < 200 := by norm_num
  exact (div_lt_div_iff_of_pos_right h200).mpr (by linarith)

/-- C10 witness: strict growth from distance 120 px to 121 px. -/
theorem pinch_monotone_in_band_witness :
    ∃ v1 v2, pinch_func pinch_lm120 = some v1 ∧
      pinch_func pinch_lm121 = some v2 ∧ v1 < v2 :=
  pinch_monotone_in_band pinch_lm120 pinch_lm121 (by decide) (by decide)
    (by rw [dist_lm120]; norm_num)
    (by rw [dist_lm120, dist_lm121]; norm_num)
    (by rw [dist_lm121]; norm_num)

/-- C6 counterexample: at value 1/2 the transmitted control-change value
is int(63.5) = 63 under Python truncation, while round(63.5) = 64. -/
theorem midi_cc_not_round :
    MIDITransmiter.send_cc connectedTransmiter (1 / 2) 10 0
        = .ok [.control_change 10 0 63] ∧
    MIDITransmiter.send_volume connectedTransmiter (1 / 2) 0
        = .ok [.control_change 7 0 63] ∧
    round ((1 / 2 : ℚ) * 127) = 64 ∧
    (63 : ℤ) ≠ 64 := by
  have hfl : pyInt ((1 / 2 : ℚ) * 127) = 63 := by
    rw [pyInt, if_pos (by norm_num)]
    norm_num
  refine ⟨?_, ?_, ?_, by norm_num⟩
  · rw [show MIDITransmiter.send_cc connectedTransmiter (1 / 2) 10 0
        = .ok [.control_change 10 0 (pyInt ((1 / 2 : ℚ) * 127))] from rfl,
      hfl]
  · rw [show MIDITransmiter.send_volume connectedTransmiter (1 / 2) 0
        = .ok [.control_change 7 0 (pyInt ((1 / 2 : ℚ) * 127))] from rfl,
      hfl]
  · rw [round_eq]
    norm_num

/-- C6 (amended): for every value q in [0,1], send_cc and send_volume on a
connected transmitter emit a control_change whose value is ⌊q·127⌋
(Python int() truncation toward zero), not round(q·127). -/
theorem midi_cc_truncates (q : ℚ) (h0 : 0 ≤ q) (_h1 : q ≤ 1)
    (control channel : ℤ) :
    MIDITransmiter.send_cc connectedTransmiter q control channel
        = .ok [.control_change control channel ⌊q * 127⌋] ∧
    MIDITransmiter.send_volume connectedTransmiter q channel
        = .ok [.control_change 7 channel ⌊q * 127⌋] := by
  have hfl : pyInt (q * 127) = ⌊q * 127⌋ := by
    rw [pyInt, if_pos (mul_nonneg h0 (by norm_num))]
  constructor
  · simp [MIDITransmiter.send_cc, MIDITransmiter.send_raw,
      connectedTransmiter, hfl]
  · simp [MIDITransmiter.send_volume, MIDITransmiter.send_raw,
      connectedTransmiter, hfl]

/-- C6 witness: the truncation law at q = 1/2 on controller 5, channel 3. -/
theorem midi_cc_truncates_witness :
    (0 : ℚ) ≤ 1 / 2 ∧ (1 / 2 : ℚ) ≤ 1 ∧
    MIDITransmiter.send_cc connectedTransmiter (1 / 2) 5 3
        = .ok [.control_change 5 3 ⌊(1 / 2 : ℚ) * 127⌋] :=
  ⟨by norm_num, by norm_num,
    (midi_cc_truncates (1 / 2) (by norm_num) (by norm_num) 5 3).1⟩

/-- C9 counterexample: while the transmitter is disconnected
(midi_out = None), send_octave and send_modulation have no connection
guard and raise AttributeError on None.send instead of returning after
logging. -/
theorem unguarded_send_octave_raises :
    MIDITransmiter.send_octave disconnectedTransmiter (1 / 2) 0
        = .error (.attributeError "send") ∧
    MIDITransmiter.send_modulation disconnectedTransmiter (1 / 2) 0
        = .error (.attributeError "send") :=
  ⟨rfl, rfl⟩

/-- C9 (amended): while the transmitter is disconnected, the guarded sinks
send_cc, send_volume, send_stop and send_fist log and return normally
without sending or raising, so per-frame evaluation continues and dispatch
is naturally retried next frame; the unguarded send_octave and
send_modulation are the exception. -/
theorem guarded_sends_return_quietly (t : MIDITransmiter)
    (h : t.connected = false) (q : ℚ) (control channel : ℤ) :
    t.send_cc q control channel = .ok [] ∧
    t.send_volume q channel = .ok [] ∧
    t.send_stop = .ok [] ∧
    t.send_fist = .ok [] := by
  refine ⟨?_, ?_, ?_, ?_⟩ <;>
    simp [MIDITransmiter.send_cc, MIDITransmiter.send_volume,
      MIDITransmiter.send_stop, MIDITransmiter.send_fist, h]

/-- C9 witness: the quiet returns on the concrete disconnected transmitter. -/
theorem guarded_sends_return_quietly_witness :
    MIDITransmiter.send_cc disconnectedTransmiter (1 / 2) 7 0 = .ok [] ∧
    MIDITransmiter.send_stop disconnectedTransmiter = .ok [] :=
  ⟨(guarded_sends_return_quietly disconnectedTransmiter rfl (1 / 2) 7 0).1,
    (guarded_sends_return_quietly disconnectedTransmiter rfl (1 / 2) 7 0).2.2.1⟩

end HanDI
